import Mathlib

/-!
Verification of the Encoding_Database ingestion pipeline.

This file gives a shallow embedding of the hardened ingest path of the
Express server (server/src/routes.ts POST /submit handler, the token
middleware of server/src/index.ts, and the disk watchdog module) and
proves/refutes the specified properties against it.

Modelling conventions:
- JavaScript numbers are modelled as rationals; every comparison and
  arithmetic step the claims touch is exact at the inputs considered.
  JS Math.round is modelled exactly (round half toward positive infinity).
- The SHA-256 content fingerprint is modelled by the tuple of significant
  fields itself (the spec treats collisions as cryptographically
  negligible, so the hash is injective for all purposes of the claims).
- The relational store is modelled as an explicit state: the audit log of
  Submission rows kept newest-first (mirroring orderBy createdAt desc) and
  the list of Benchmark aggregate rows.  The handler is a pure state
  transformer, matching the sequential semantics of one request at a time;
  the unique-violation catch path (P2002) only matters under races and is
  subsumed by the fast path in this sequential model.
- The informational qualityScore uses real exponentials, is stored for
  display only, and influences no decision; it is not modelled.
-/

/-- Pipeline outcome assigned to a submission (routes.ts status union). -/
inductive Status where
  | pending
  | accepted
  | rejected
  | suspect
  deriving DecidableEq, Repr

/-- The seven-column composite configuration key
(cpuModel, gpuModel, ramGB, os, codec, preset, crf). -/
structure Key where
  cpuModel : String
  gpuModel : Option String
  ramGB : Int
  os : String
  codec : String
  preset : String
  crf : Int
  deriving DecidableEq, Repr

/-- The significant fields hashed into the dedup fingerprint
(routes.ts, const significant). Stands in for the SHA-256 digest. -/
structure Significant where
  cpuModel : String
  gpuModel : Option String
  ramGB : Int
  os : String
  codec : String
  preset : String
  crf : Int
  fps : Rat
  vmaf : Option Rat
  fileSizeBytes : Int
  inputHash : Option String
  deriving DecidableEq, Repr

/-- A schema-validated submission payload (zod benchmarkSchema output,
after the CRF default has been applied). -/
structure ValidData where
  cpuModel : String
  gpuModel : Option String
  ramGB : Int
  os : String
  codec : String
  preset : String
  crf : Int
  fps : Rat
  vmaf : Option Rat
  fileSizeBytes : Int
  notes : Option String
  ffmpegVersion : Option String
  encoderName : Option String
  clientVersion : Option String
  inputHash : Option String
  runMs : Option Int
  deriving DecidableEq, Repr

/-- A stored Submission audit row (prisma.submission.create payload). -/
structure Submission where
  cpuModel : String
  gpuModel : Option String
  ramGB : Int
  os : String
  codec : String
  preset : String
  crf : Int
  fps : Rat
  vmaf : Option Rat
  fileSizeBytes : Int
  notes : Option String
  ffmpegVersion : Option String
  encoderName : Option String
  clientVersion : Option String
  inputHash : Option String
  runMs : Option Int
  payloadHash : Significant
  status : Status
  deriving DecidableEq, Repr

/-- A Benchmark aggregate row (one per configuration key).  The seven key
columns are grouped into the key field; payloadHash is nullable in the
schema (rows predating the idempotency migration). -/
structure Benchmark where
  key : Key
  fps : Rat
  vmaf : Option Rat
  fileSizeBytes : Int
  notes : Option String
  status : Status
  inputHash : Option String
  payloadHash : Option Significant
  samples : Nat
  vmafSamples : Nat
  deriving DecidableEq, Repr

/-- Database state: audit log newest-first, plus the aggregate table. -/
structure DB where
  submissions : List Submission
  benchmarks : List Benchmark
  deriving DecidableEq, Repr

def DB.empty : DB := { submissions := [], benchmarks := [] }

/-- HTTP response of the submit handler: status code plus (for the
success shapes) the aggregate row serialized back to the caller. -/
structure Response where
  code : Nat
  row : Option Benchmark
  deriving DecidableEq, Repr

/-- The significant-field fingerprint (routes.ts const significant /
payloadHash). -/
def significant (d : ValidData) : Significant :=
  { cpuModel := d.cpuModel
    gpuModel := d.gpuModel
    ramGB := d.ramGB
    os := d.os
    codec := d.codec
    preset := d.preset
    crf := d.crf
    fps := d.fps
    vmaf := d.vmaf
    fileSizeBytes := d.fileSizeBytes
    inputHash := d.inputHash }

/-- The composite aggregation key of a payload (routes.ts const key). -/
def keyOf (d : ValidData) : Key :=
  { cpuModel := d.cpuModel
    gpuModel := d.gpuModel
    ramGB := d.ramGB
    os := d.os
    codec := d.codec
    preset := d.preset
    crf := d.crf }

/-- Whether a stored submission matches a configuration key (the where
clause of the recent-history findMany). -/
def matchesKey (s : Submission) (k : Key) : Prop :=
  s.cpuModel = k.cpuModel ∧ s.gpuModel = k.gpuModel ∧ s.ramGB = k.ramGB ∧
  s.os = k.os ∧ s.codec = k.codec ∧ s.preset = k.preset ∧ s.crf = k.crf

instance (s : Submission) (k : Key) : Decidable (matchesKey s k) := by
  unfold matchesKey; infer_instance

/-- Recent accepted history for a key: status accepted, same key,
newest-first, take 200 (routes.ts recentSubs). -/
def recentAccepted (db : DB) (k : Key) : List Submission :=
  (db.submissions.filter (fun s => decide (s.status = Status.accepted ∧ matchesKey s k))).take 200

/-- Insertion into a sorted list of rationals. -/
def insertLe (x : Rat) : List Rat → List Rat
  | [] => [x]
  | y :: ys => if x ≤ y then x :: y :: ys else y :: insertLe x ys

/-- Ascending sort, modelling the sort((a,b) => a-b) in median. -/
def sortQ : List Rat → List Rat
  | [] => []
  | x :: xs => insertLe x (sortQ xs)

/-- Median of a sample: 0 on empty, middle element for odd length,
mean of the two middle elements for even length (routes.ts median). -/
def median (values : List Rat) : Rat :=
  let v := sortQ values
  let n := v.length
  if n = 0 then 0
  else
    let m := n / 2
    if n % 2 = 1 then v.getD m 0
    else (v.getD (m - 1) 0 + v.getD m 0) / 2

/-- Median absolute deviation (routes.ts mad). -/
def mad (values : List Rat) (med : Rat) : Rat :=
  median (values.map (fun x => |x - med|))

/-- Robust z-score: (x - med) / (1.4826 * MAD), with denominator 1 when
MAD is not positive (routes.ts robustZ). -/
def robustZ (x med madVal : Rat) : Rat :=
  (x - med) / (if madVal > 0 then (14826 / 10000 : Rat) * madVal else 1)

/-- Canonical input hash allow-list; empty in the source (MVP). -/
def CANONICAL_INPUT_HASHES : List String := []

/-- Sanity flag: codec is a string of length at most 64 (the typeof check
is always true for schema output). -/
def isCodecOk (d : ValidData) : Bool := d.codec.length ≤ 64

/-- Sanity flag: preset length at most 64. -/
def isPresetOk (d : ValidData) : Bool := d.preset.length ≤ 64

/-- Sanity flag: fps within 0.1 .. 5000. -/
def isFpsOk (d : ValidData) : Bool :=
  decide ((1 / 10 : Rat) ≤ d.fps) && decide (d.fps ≤ 5000)

/-- Sanity flag: output size within 10 KiB .. 1000 MiB. -/
def isSizeOk (d : ValidData) : Bool :=
  decide ((10 * 1024 : Int) ≤ d.fileSizeBytes) &&
  decide (d.fileSizeBytes ≤ 1000 * 1024 * 1024)

/-- Sanity flag: trimmed CPU and OS names of length at least 3. -/
def namesOk (d : ValidData) : Bool :=
  decide (3 ≤ d.cpuModel.trim.length) && decide (3 ≤ d.os.trim.length)

/-- Whether the payload carries a known canonical input hash. -/
def inputHashOk (d : ValidData) : Bool :=
  match d.inputHash with
  | some h => CANONICAL_INPUT_HASHES.contains h
  | none => false

/-- Conjunction of all basic sanity checks. -/
def sanityAll (d : ValidData) : Bool :=
  isCodecOk d && isPresetOk d && isFpsOk d && isSizeOk d && namesOk d

/-- FPS metric sample drawn from the history (positive entries). -/
def fpsArrOf (recent : List Submission) : List Rat :=
  (recent.map (fun r => r.fps)).filter (fun n => decide (0 < n))

/-- Size metric sample drawn from the history (positive entries). -/
def sizeArrOf (recent : List Submission) : List Rat :=
  (recent.map (fun r => (r.fileSizeBytes : Rat))).filter (fun n => decide (0 < n))

/-- VMAF metric sample drawn from the history.  Faithful to the source:
a row with no VMAF contributes vmaf ?? 0, and the filter keeps every
value that is at least 0 - so missing VMAF enters the sample as 0. -/
def vmafArrOf (recent : List Submission) : List Rat :=
  (recent.map (fun r => r.vmaf.getD 0)).filter (fun n => decide (0 ≤ n))

/-- FPS baseline median: history median, or the new value itself when the
history sample is empty. -/
def fpsMedOf (recent : List Submission) (d : ValidData) : Rat :=
  if (fpsArrOf recent).length ≠ 0 then median (fpsArrOf recent) else d.fps

/-- FPS baseline MAD (0 when the history sample is empty). -/
def fpsMadOf (recent : List Submission) (d : ValidData) : Rat :=
  if (fpsArrOf recent).length ≠ 0 then mad (fpsArrOf recent) (fpsMedOf recent d) else 0

/-- Size baseline median. -/
def sizeMedOf (recent : List Submission) (d : ValidData) : Rat :=
  if (sizeArrOf recent).length ≠ 0 then median (sizeArrOf recent) else (d.fileSizeBytes : Rat)

/-- Size baseline MAD. -/
def sizeMadOf (recent : List Submission) (d : ValidData) : Rat :=
  if (sizeArrOf recent).length ≠ 0 then mad (sizeArrOf recent) (sizeMedOf recent d) else 0

/-- VMAF baseline median (falls back to vmaf ?? 0 of the new payload). -/
def vmafMedOf (recent : List Submission) (d : ValidData) : Rat :=
  if (vmafArrOf recent).length ≠ 0 then median (vmafArrOf recent) else d.vmaf.getD 0

/-- VMAF baseline MAD. -/
def vmafMadOf (recent : List Submission) (d : ValidData) : Rat :=
  if (vmafArrOf recent).length ≠ 0 then mad (vmafArrOf recent) (vmafMedOf recent d) else 0

/-- Robust z-score of the new FPS value. -/
def fpsZOf (recent : List Submission) (d : ValidData) : Rat :=
  robustZ d.fps (fpsMedOf recent d) (fpsMadOf recent d)

/-- Robust z-score of the new size value. -/
def sizeZOf (recent : List Submission) (d : ValidData) : Rat :=
  robustZ (d.fileSizeBytes : Rat) (sizeMedOf recent d) (sizeMadOf recent d)

/-- Robust z-score of the new VMAF value; 0 when the payload has none. -/
def vmafZOf (recent : List Submission) (d : ValidData) : Rat :=
  match d.vmaf with
  | none => 0
  | some v => robustZ v (vmafMedOf recent d) (vmafMadOf recent d)

/-- Maximum absolute robust z-score over the three metrics. -/
def maxAbsZ (recent : List Submission) (d : ValidData) : Rat :=
  max |fpsZOf recent d| (max |sizeZOf recent d| |vmafZOf recent d|)

/-- The status decision of the scorer (routes.ts impossible / extreme /
suspect / baselineOk / status nested conditional). -/
def scoreStatus (recent : List Submission) (d : ValidData) : Status :=
  let impossible := !(isCodecOk d && isPresetOk d && isFpsOk d && isSizeOk d && namesOk d)
  let extreme := decide (maxAbsZ recent d > 6)
  let suspect := decide (maxAbsZ recent d > 3)
  let baselineOk := inputHashOk d ||
    (isCodecOk d && isPresetOk d && isFpsOk d && isSizeOk d && namesOk d)
  if impossible then Status.rejected
  else if extreme then Status.rejected
  else if suspect then Status.suspect
  else if baselineOk then Status.accepted
  else Status.pending

/-- Status computed for a payload against the current database state. -/
def computeStatus (db : DB) (d : ValidData) : Status :=
  scoreStatus (recentAccepted db (keyOf d)) d

/-- JS Math.round: round half toward positive infinity. -/
def jsRound (q : Rat) : Int := (q + (1 / 2 : Rat)).floor

/-- The audit Submission row stored for a scored payload. -/
def mkSubmission (d : ValidData) (h : Significant) (st : Status) : Submission :=
  { cpuModel := d.cpuModel
    gpuModel := d.gpuModel
    ramGB := d.ramGB
    os := d.os
    codec := d.codec
    preset := d.preset
    crf := d.crf
    fps := d.fps
    vmaf := d.vmaf
    fileSizeBytes := d.fileSizeBytes
    notes := d.notes
    ffmpegVersion := d.ffmpegVersion
    encoderName := d.encoderName
    clientVersion := d.clientVersion
    inputHash := d.inputHash
    runMs := d.runMs
    payloadHash := h
    status := st }

/-- The create branch of the aggregate transaction: seeds the row from
this payload, samples = 1, vmafSamples 0 or 1, status as computed. -/
def createBenchmark (k : Key) (d : ValidData) (st : Status) (h : Significant) : Benchmark :=
  { key := k
    fps := d.fps
    vmaf := d.vmaf
    fileSizeBytes := d.fileSizeBytes
    notes := d.notes
    status := st
    inputHash := d.inputHash
    payloadHash := some h
    samples := 1
    vmafSamples := if d.vmaf.isSome then 1 else 0 }

/-- The update branch of the aggregate transaction (routes.ts lines
195-225): incremental means, rounded for file size, VMAF merged only
when present, counters and status guarded on the accepted outcome. -/
def mergeBenchmark (existing : Benchmark) (d : ValidData) (st : Status) : Benchmark :=
  let prevSamples := existing.samples
  let nextSamples := prevSamples + 1
  let prevFps := existing.fps
  let prevFileSize := existing.fileSizeBytes
  let nextFps := (prevFps * (prevSamples : Rat) + d.fps) / (nextSamples : Rat)
  let nextFileSize :=
    jsRound (((prevFileSize : Rat) * (prevSamples : Rat) + (d.fileSizeBytes : Rat)) / (nextSamples : Rat))
  let prevVmafSamples := existing.vmafSamples
  let nextVmafSamples :=
    match d.vmaf with
    | none => prevVmafSamples
    | some _ => prevVmafSamples + 1
  let nextVmaf : Option Rat :=
    match d.vmaf with
    | none => existing.vmaf
    | some v => some ((existing.vmaf.getD 0 * (prevVmafSamples : Rat) + v) / ((prevVmafSamples : Nat) + 1 : Rat))
  let nextStatus :=
    if existing.status = Status.accepted ∨ st = Status.accepted then Status.accepted
    else existing.status
  { existing with
    fps := if st = Status.accepted then nextFps else prevFps
    fileSizeBytes := if st = Status.accepted then nextFileSize else prevFileSize
    vmaf := if st = Status.accepted then nextVmaf else existing.vmaf
    samples := if st = Status.accepted then nextSamples else prevSamples
    vmafSamples := if st = Status.accepted then nextVmafSamples else prevVmafSamples
    status := if st = Status.accepted then Status.accepted else nextStatus }

/-- Lookup of a benchmark row by dedup fingerprint
(prisma.benchmark.findUnique where payloadHash). -/
def findBenchByHash (bs : List Benchmark) (h : Significant) : Option Benchmark :=
  bs.find? (fun b => decide (b.payloadHash = some h))

/-- Lookup of a benchmark row by composite key
(findUnique where cpuModel_gpuModel_ramGB_os_codec_preset_crf). -/
def findBenchByKey (bs : List Benchmark) (k : Key) : Option Benchmark :=
  bs.find? (fun b => decide (b.key = k))

/-- Replace the (unique) row with the given key. -/
def replaceBench : List Benchmark → Key → Benchmark → List Benchmark
  | [], _, _ => []
  | x :: xs, k, b => if x.key = k then b :: xs else x :: replaceBench xs k b

/-- The handler after the dedup fast path missed: score, store the audit
row (which does not touch the Benchmark table), then create or merge the
aggregate row in a transaction. -/
def ingestAfterDedup (db : DB) (d : ValidData) : Response × DB :=
  let st := computeStatus db d
  let sub := mkSubmission d (significant d) st
  match findBenchByKey db.benchmarks (keyOf d) with
  | none =>
    let b := createBenchmark (keyOf d) d st (significant d)
    ({ code := 201, row := some b },
     { submissions := sub :: db.submissions, benchmarks := b :: db.benchmarks })
  | some existing =>
    let b := mergeBenchmark existing d st
    ({ code := 200, row := some b },
     { submissions := sub :: db.submissions,
       benchmarks := replaceBench db.benchmarks (keyOf d) b })

/-- The POST /submit handler on a schema-valid payload: dedup fast path
against the Benchmark table by fingerprint, else full pipeline. -/
def postSubmit (db : DB) (d : ValidData) : Response × DB :=
  match findBenchByHash db.benchmarks (significant d) with
  | some b => ({ code := 200, row := some b }, db)
  | none => ingestAfterDedup db d

/-! ### CRF field validation (zod benchmarkSchema.crf plus the default step) -/

/-- The raw crf field of a request body as seen by zod: absent
(undefined), JSON null, a numeric value, or a value whose JS Number
coercion is NaN (for example a non-numeric string). -/
inductive CrfField where
  | absent
  | null
  | num (q : Rat)
  | nonNumeric
  deriving DecidableEq, Repr

/-- zod parse of the crf field: coerce.number().int().min(0).max(63)
.optional().nullable().  Optional and nullable short-circuit absent and
null; a numeric value must be an integer in 0..63; a NaN coercion fails
the int check, so the whole request is rejected with a 400. -/
def zodParseCrf : CrfField → Option (Option Int)
  | CrfField.absent => some none
  | CrfField.null => some none
  | CrfField.num q =>
      if q.den = 1 ∧ 0 ≤ q.num ∧ q.num ≤ 63 then some (some q.num) else none
  | CrfField.nonNumeric => none

/-- The post-parse default step (routes.ts lines 41-44).  On parsed data
crf is either null-or-absent or a finite integer, so the
Number.isFinite branch of the condition is vacuous and the step is
exactly: default to 24 when missing. -/
def applyCrfDefault : Option Int → Int
  | none => 24
  | some v => v

/-- A payload with every field except crf already validated. -/
structure PreCrfData where
  cpuModel : String
  gpuModel : Option String
  ramGB : Int
  os : String
  codec : String
  preset : String
  fps : Rat
  vmaf : Option Rat
  fileSizeBytes : Int
  notes : Option String
  ffmpegVersion : Option String
  encoderName : Option String
  clientVersion : Option String
  inputHash : Option String
  runMs : Option Int
  deriving DecidableEq, Repr

/-- Assemble the validated payload from a pre-validated base and a
defaulted crf. -/
def withCrf (base : PreCrfData) (crf : Int) : ValidData :=
  { cpuModel := base.cpuModel
    gpuModel := base.gpuModel
    ramGB := base.ramGB
    os := base.os
    codec := base.codec
    preset := base.preset
    crf := crf
    fps := base.fps
    vmaf := base.vmaf
    fileSizeBytes := base.fileSizeBytes
    notes := base.notes
    ffmpegVersion := base.ffmpegVersion
    encoderName := base.encoderName
    clientVersion := base.clientVersion
    inputHash := base.inputHash
    runMs := base.runMs }

/-- The submit endpoint including schema validation of the crf field:
a parse failure returns 400 and leaves the database untouched;
otherwise the crf default is applied and the handler runs. -/
def postSubmitCrf (db : DB) (base : PreCrfData) (c : CrfField) : Response × DB :=
  match zodParseCrf c with
  | none => ({ code := 400, row := none }, db)
  | some oc => postSubmit db (withCrf base (applyCrfDefault oc))

/-! ### Ingest token middleware (index.ts normalizeIp / validateToken) -/

/-- Stored metadata of an issued submit token. -/
structure TokenMeta where
  ip : String
  expMs : Int
  used : Bool
  deriving DecidableEq, Repr

/-- The in-memory token store, an association list token -> metadata. -/
abbrev TokenStore := List (String × TokenMeta)

/-- Lookup a token in the store. -/
def lookupToken (store : TokenStore) (tok : String) : Option TokenMeta :=
  match store.find? (fun p => decide (p.1 = tok)) with
  | some p => some p.2
  | none => none

/-- Write back the metadata of a token (tokenStore.set). -/
def setToken (store : TokenStore) (tok : String) (m : TokenMeta) : TokenStore :=
  match store with
  | [] => [(tok, m)]
  | p :: ps => if p.1 = tok then (tok, m) :: ps else p :: setToken ps tok m

/-- Strip an IPv4-mapped IPv6 prefix, case-insensitively
(index.ts normalizeIp). -/
def normalizeIp : Option String → String
  | none => ""
  | some s => if s.toLower.startsWith "::ffff:" then s.drop 7 else s

/-- Issue a fresh single-use token bound to the normalized IP of the caller
with a TTL expiry (index.ts issueSubmitToken). -/
def issueSubmitToken (store : TokenStore) (tok : String) (reqIp : Option String)
    (nowMs ttlMs : Int) : TokenStore :=
  setToken store tok { ip := normalizeIp reqIp, expMs := nowMs + ttlMs, used := false }

/-- Result of the token check: pass (with the updated store) or an HTTP
error code with its machine-readable reason. -/
inductive TokenResult where
  | ok (store : TokenStore)
  | err (code : Nat) (reason : String)
  deriving DecidableEq, Repr

/-- validateToken of the submit middleware (index.ts lines 199-222), in
the default configuration with proof-of-work disabled (POW_ENABLED
unset).  Checks, in source order: presence, existence, prior use (409),
expiry (401), and IP binding against the normalized request IP; on
success the token is marked used in the store. -/
def validateToken (store : TokenStore) (tok : String) (nowMs : Int)
    (reqIpRaw : Option String) : TokenResult :=
  if tok = "" then TokenResult.err 401 "missing_token"
  else
    match lookupToken store tok with
    | none => TokenResult.err 401 "invalid_token"
    | some meta =>
      if meta.used then TokenResult.err 409 "token_used"
      else if meta.expMs < nowMs then TokenResult.err 401 "token_expired"
      else
        let reqIp := normalizeIp reqIpRaw
        if meta.ip ≠ "" ∧ reqIp ≠ "" ∧ meta.ip ≠ reqIp then
          TokenResult.err 401 "ip_mismatch"
        else TokenResult.ok (setToken store tok { meta with used := true })

/-! ### Disk watchdog and ingestion gate -/

/-- Default free-space threshold in GB (DISK_MIN_FREE_GB default). -/
def DISK_MIN_FREE_GB_default : Rat := 25

/-- Watchdog state: the read-only flag and the last sampled free space
(none until a sample succeeds, mirroring the initial NaN). -/
structure GateState where
  ingestReadOnly : Bool
  freeGb : Option Rat
  deriving DecidableEq, Repr

/-- Initial watchdog state (module load). -/
def GateState.init : GateState := { ingestReadOnly := false, freeGb := none }

/-- One watchdog tick (diskWatchdog tryTick): a failed or unparsable df
sample keeps the previous state; a successful sample of g free GB sets
the read-only flag to g < threshold. -/
def tick (thresholdGb : Rat) (st : GateState) (sample : Option Rat) : GateState :=
  match sample with
  | none => st
  | some gb => { ingestReadOnly := gb < thresholdGb, freeGb := some gb }

/-- Run a sequence of watchdog ticks. -/
def runTicks (thresholdGb : Rat) (st : GateState) (samples : List (Option Rat)) : GateState :=
  samples.foldl (tick thresholdGb) st

/-- Outcome of the gated ingest endpoint. -/
inductive GateResp where
  | unavailable
  | handled (r : Response)
  deriving DecidableEq, Repr

/-- Modelled from the spec: the server entrypoint that wires the disk
watchdog into the ingest path is not under src (the diskWatchdog module
has no importer there; only the module itself is present).  Per the
spec, when the gate is engaged every new submission is rejected with a
service-unavailable outcome before any other pipeline component runs -
modelled by returning unavailable with the database untouched. -/
def gatedSubmit (g : GateState) (db : DB) (d : ValidData) : GateResp × DB :=
  if g.ingestReadOnly then (GateResp.unavailable, db)
  else
    let (r, db2) := postSubmit db d
    (GateResp.handled r, db2)

/-! ### Concrete payloads used as witnesses and counterexamples -/

/-- A sane accepted baseline payload. -/
def dataA : ValidData :=
  { cpuModel := "Ryzen 7 5800X", gpuModel := none, ramGB := 32, os := "Linux",
    codec := "av1", preset := "p6", crf := 24, fps := 100, vmaf := none,
    fileSizeBytes := 10485760, notes := none, ffmpegVersion := none,
    encoderName := none, clientVersion := none, inputHash := none, runMs := none }

/-- Same configuration key as dataA, slightly different FPS (different
fingerprint, still within the robust tolerance of the baseline). -/
def dataB : ValidData := { dataA with fps := 102 }

/-- Same key as dataA but with an impossible file size, so the sanity
checks fail and the scorer rejects it. -/
def dataBad : ValidData := { dataA with fileSizeBytes := 0 }

/-- The 90-FPS submission of the aggregate-correctness example. -/
def data90 : ValidData := { dataA with fps := 90 }

/-- The 110-FPS submission of the aggregate-correctness example. -/
def data110 : ValidData := { dataA with fps := 110 }

/-- A second 100-FPS payload for the same key (size differs by 2 bytes
so the fingerprint is fresh while both z-scores stay within tolerance). -/
def d100b : ValidData := { dataA with fileSizeBytes := 10485762 }

/-- A third 100-FPS payload for the same key (size differs by 1 byte). -/
def d100c : ValidData := { dataA with fileSizeBytes := 10485761 }

/-- Same key as dataA, reporting a VMAF of 90. -/
def dV1 : ValidData := { dataA with vmaf := some 90 }

/-- The payload of dataA with the crf field not yet validated. -/
def baseA : PreCrfData :=
  { cpuModel := "Ryzen 7 5800X", gpuModel := none, ramGB := 32, os := "Linux",
    codec := "av1", preset := "p6", fps := 100, vmaf := none,
    fileSizeBytes := 10485760, notes := none, ffmpegVersion := none,
    encoderName := none, clientVersion := none, inputHash := none, runMs := none }

/-! ### Helper lemmas about the handler -/

/-- A fingerprint hit on the Benchmark table short-circuits the handler. -/
theorem postSubmit_hit {db : DB} {d : ValidData} {b : Benchmark}
    (hb : findBenchByHash db.benchmarks (significant d) = some b) :
    postSubmit db d = ({ code := 200, row := some b }, db) := by
  unfold postSubmit
  rw [hb]

/-- A fingerprint miss runs the full pipeline. -/
theorem postSubmit_miss {db : DB} {d : ValidData}
    (h : findBenchByHash db.benchmarks (significant d) = none) :
    postSubmit db d = ingestAfterDedup db d := by
  unfold postSubmit
  rw [h]

/-- The create branch of the aggregate transaction. -/
theorem ingest_create {db : DB} {d : ValidData}
    (h : findBenchByKey db.benchmarks (keyOf d) = none) :
    ingestAfterDedup db d =
      ({ code := 201,
         row := some (createBenchmark (keyOf d) d (computeStatus db d) (significant d)) },
       { submissions := mkSubmission d (significant d) (computeStatus db d) :: db.submissions,
         benchmarks :=
           createBenchmark (keyOf d) d (computeStatus db d) (significant d) :: db.benchmarks }) := by
  unfold ingestAfterDedup
  rw [h]

/-- The merge branch of the aggregate transaction. -/
theorem ingest_merge {db : DB} {d : ValidData} {e : Benchmark}
    (h : findBenchByKey db.benchmarks (keyOf d) = some e) :
    ingestAfterDedup db d =
      ({ code := 200, row := some (mergeBenchmark e d (computeStatus db d)) },
       { submissions := mkSubmission d (significant d) (computeStatus db d) :: db.submissions,
         benchmarks :=
           replaceBench db.benchmarks (keyOf d) (mergeBenchmark e d (computeStatus db d)) }) := by
  unfold ingestAfterDedup
  rw [h]

/-- Finding by key at the head of the table. -/
theorem findBenchByKey_cons_self {b : Benchmark} {bs : List Benchmark} {k : Key}
    (hb : b.key = k) : findBenchByKey (b :: bs) k = some b := by
  unfold findBenchByKey
  rw [List.find?_cons_of_pos]
  exact decide_eq_true hb

/-- Finding by fingerprint at the head of the table. -/
theorem findBenchByHash_cons_self {b : Benchmark} {bs : List Benchmark} {h : Significant}
    (hb : b.payloadHash = some h) : findBenchByHash (b :: bs) h = some b := by
  unfold findBenchByHash
  rw [List.find?_cons_of_pos]
  exact decide_eq_true hb

/-- A row found by key carries that key. -/
theorem findBenchByKey_sound {bs : List Benchmark} {k : Key} {b : Benchmark}
    (h : findBenchByKey bs k = some b) : b.key = k := by
  unfold findBenchByKey at h
  have h2 := List.find?_some h
  simp only [decide_eq_true_eq] at h2
  exact h2

/-- Replacing the keyed row makes the subsequent key lookup return it. -/
theorem findBenchByKey_replace {bs : List Benchmark} {k : Key} {b0 b : Benchmark}
    (h : findBenchByKey bs k = some b0) (hb : b.key = k) :
    findBenchByKey (replaceBench bs k b) k = some b := by
  induction bs with
  | nil => simp [findBenchByKey] at h
  | cons x xs ih =>
    unfold replaceBench
    by_cases hx : x.key = k
    · rw [if_pos hx]
      exact findBenchByKey_cons_self hb
    · rw [if_neg hx]
      have hpx : (decide (x.key = k)) = false := decide_eq_false hx
      unfold findBenchByKey at h ⊢
      rw [List.find?_cons_of_neg _ (by simp [hpx])] at h ⊢
      exact ih h

/-- The merge step keeps the key of the row. -/
theorem mergeBenchmark_key (e : Benchmark) (d : ValidData) (st : Status) :
    (mergeBenchmark e d st).key = e.key := rfl

/-- Every audit row in the post state is either the freshly scored row or
was already present. -/
theorem postSubmit_submissions {db : DB} {d : ValidData} {s : Submission}
    (hs : s ∈ (postSubmit db d).2.submissions) :
    s = mkSubmission d (significant d) (computeStatus db d) ∨ s ∈ db.submissions := by
  cases hh : findBenchByHash db.benchmarks (significant d) with
  | some b =>
    rw [postSubmit_hit hh] at hs
    exact Or.inr hs
  | none =>
    rw [postSubmit_miss hh] at hs
    cases hk : findBenchByKey db.benchmarks (keyOf d) with
    | none =>
      rw [ingest_create hk] at hs
      simp only [List.mem_cons] at hs
      rcases hs with hs | hs
      · exact Or.inl hs
      · exact Or.inr hs
    | some e =>
      rw [ingest_merge hk] at hs
      simp only [List.mem_cons] at hs
      rcases hs with hs | hs
      · exact Or.inl hs
      · exact Or.inr hs

/-- A payload whose merge produces a half-integer file-size mean. -/
def dRound : ValidData := { dataA with fileSizeBytes := 10485763 }

/-! ### Intermediate database states of the concrete runs

Chained handler calls are evaluated one step at a time through named
intermediate states, so that each step lemma is a single-step
computation. -/

/-- The aggregate row created by dataA on the empty database. -/
def benchA : Benchmark :=
  createBenchmark (keyOf dataA) dataA Status.accepted (significant dataA)

/-- Database state after submitting dataA to the empty database. -/
def db1 : DB :=
  { submissions := [mkSubmission dataA (significant dataA) Status.accepted],
    benchmarks := [benchA] }

set_option maxRecDepth 3000 in
/-- First step of the concrete runs: dataA creates its aggregate row. -/
theorem step_A : (postSubmit DB.empty dataA).2 = db1 := by
  have hst : computeStatus DB.empty dataA = Status.accepted := by with_unfolding_all decide
  rw [postSubmit_miss (show findBenchByHash DB.empty.benchmarks (significant dataA) = none from rfl),
      ingest_create (show findBenchByKey DB.empty.benchmarks (keyOf dataA) = none from rfl), hst]
  rfl

/-- The aggregate row after dataB merges into benchA. -/
def benchAB : Benchmark := mergeBenchmark benchA dataB Status.accepted

/-- Database state after dataA then dataB. -/
def db2 : DB :=
  { submissions := [mkSubmission dataB (significant dataB) Status.accepted,
                    mkSubmission dataA (significant dataA) Status.accepted],
    benchmarks := [benchAB] }

set_option maxRecDepth 3000 in
/-- Second step: dataB is accepted against the history of dataA and
merges into the aggregate. -/
theorem step_B : (postSubmit db1 dataB).2 = db2 := by
  have hst : computeStatus db1 dataB = Status.accepted := by with_unfolding_all decide
  have hh : findBenchByHash db1.benchmarks (significant dataB) = none := by
    with_unfolding_all decide
  have hk : findBenchByKey db1.benchmarks (keyOf dataB) = some benchA :=
    findBenchByKey_cons_self (by with_unfolding_all decide)
  rw [postSubmit_miss hh, ingest_merge hk, hst]
  rfl

/-- The aggregate row after dataB merges a second time. -/
def benchAB2 : Benchmark := mergeBenchmark benchAB dataB Status.accepted

/-- Database state after dataA, dataB, dataB: the duplicate of dataB is
scored and merged again. -/
def db3 : DB :=
  { submissions := [mkSubmission dataB (significant dataB) Status.accepted,
                    mkSubmission dataB (significant dataB) Status.accepted,
                    mkSubmission dataA (significant dataA) Status.accepted],
    benchmarks := [benchAB2] }

set_option maxRecDepth 3000 in
/-- Third step: the resubmission of dataB is not short-circuited. -/
theorem step_B2 : (postSubmit db2 dataB).2 = db3 := by
  have hst : computeStatus db2 dataB = Status.accepted := by with_unfolding_all decide
  have hh : findBenchByHash db2.benchmarks (significant dataB) = none := by
    with_unfolding_all decide
  have hk : findBenchByKey db2.benchmarks (keyOf dataB) = some benchAB :=
    findBenchByKey_cons_self (by with_unfolding_all decide)
  rw [postSubmit_miss hh, ingest_merge hk, hst]
  rfl

/-- Database state after submitting data90 to the empty database. -/
def db90 : DB :=
  { submissions := [mkSubmission data90 (significant data90) Status.accepted],
    benchmarks := [createBenchmark (keyOf data90) data90 Status.accepted (significant data90)] }

set_option maxRecDepth 3000 in
/-- The 90-FPS submission is accepted on the fresh key. -/
theorem step_90 : (postSubmit DB.empty data90).2 = db90 := by
  have hst : computeStatus DB.empty data90 = Status.accepted := by with_unfolding_all decide
  rw [postSubmit_miss (show findBenchByHash DB.empty.benchmarks (significant data90) = none from rfl),
      ingest_create (show findBenchByKey DB.empty.benchmarks (keyOf data90) = none from rfl), hst]
  rfl

/-- Database state after data90 then data110: the 110-FPS submission is
rejected (robust z 20 against the single-sample baseline), so the merge
leaves the aggregate numbers untouched. -/
def db90_110 : DB :=
  { submissions := [mkSubmission data110 (significant data110) Status.rejected,
                    mkSubmission data90 (significant data90) Status.accepted],
    benchmarks :=
      [mergeBenchmark (createBenchmark (keyOf data90) data90 Status.accepted (significant data90))
        data110 Status.rejected] }

set_option maxRecDepth 3000 in
/-- The 110-FPS submission is rejected against the 90-FPS baseline. -/
theorem step_110 : (postSubmit db90 data110).2 = db90_110 := by
  have hst : computeStatus db90 data110 = Status.rejected := by with_unfolding_all decide
  have hh : findBenchByHash db90.benchmarks (significant data110) = none := by
    with_unfolding_all decide
  have hk : findBenchByKey db90.benchmarks (keyOf data110) =
      some (createBenchmark (keyOf data90) data90 Status.accepted (significant data90)) :=
    findBenchByKey_cons_self (by with_unfolding_all decide)
  rw [postSubmit_miss hh, ingest_merge hk, hst]
  rfl

/-- Database state after dataA then dRound (sizes 10485760, 10485763). -/
def dbRound : DB :=
  { submissions := [mkSubmission dRound (significant dRound) Status.accepted,
                    mkSubmission dataA (significant dataA) Status.accepted],
    benchmarks := [mergeBenchmark benchA dRound Status.accepted] }

set_option maxRecDepth 3000 in
/-- The dRound submission is accepted (size z-score exactly 3) and its
size merges with rounding. -/
theorem step_Round : (postSubmit db1 dRound).2 = dbRound := by
  have hst : computeStatus db1 dRound = Status.accepted := by with_unfolding_all decide
  have hh : findBenchByHash db1.benchmarks (significant dRound) = none := by
    with_unfolding_all decide
  have hk : findBenchByKey db1.benchmarks (keyOf dRound) = some benchA :=
    findBenchByKey_cons_self (by with_unfolding_all decide)
  rw [postSubmit_miss hh, ingest_merge hk, hst]
  rfl

/-- Database state after dataA then d100b. -/
def db100b : DB :=
  { submissions := [mkSubmission d100b (significant d100b) Status.accepted,
                    mkSubmission dataA (significant dataA) Status.accepted],
    benchmarks := [mergeBenchmark benchA d100b Status.accepted] }

set_option maxRecDepth 3000 in
/-- The second 100-FPS submission is accepted and merges. -/
theorem step_100b : (postSubmit db1 d100b).2 = db100b := by
  have hst : computeStatus db1 d100b = Status.accepted := by with_unfolding_all decide
  have hh : findBenchByHash db1.benchmarks (significant d100b) = none := by
    with_unfolding_all decide
  have hk : findBenchByKey db1.benchmarks (keyOf d100b) = some benchA :=
    findBenchByKey_cons_self (by with_unfolding_all decide)
  rw [postSubmit_miss hh, ingest_merge hk, hst]
  rfl

/-- Database state after dataA, d100b, d100c. -/
def db100c : DB :=
  { submissions := [mkSubmission d100c (significant d100c) Status.accepted,
                    mkSubmission d100b (significant d100b) Status.accepted,
                    mkSubmission dataA (significant dataA) Status.accepted],
    benchmarks :=
      [mergeBenchmark (mergeBenchmark benchA d100b Status.accepted) d100c Status.accepted] }

set_option maxRecDepth 3000 in
/-- The third 100-FPS submission is accepted and merges. -/
theorem step_100c : (postSubmit db100b d100c).2 = db100c := by
  have hst : computeStatus db100b d100c = Status.accepted := by with_unfolding_all decide
  have hh : findBenchByHash db100b.benchmarks (significant d100c) = none := by
    with_unfolding_all decide
  have hk : findBenchByKey db100b.benchmarks (keyOf d100c) =
      some (mergeBenchmark benchA d100b Status.accepted) :=
    findBenchByKey_cons_self (by with_unfolding_all decide)
  rw [postSubmit_miss hh, ingest_merge hk, hst]
  rfl

set_option maxRecDepth 3000 in
/-- C1 counterexample: the dedup fast path looks the fingerprint up in
the Benchmark table, whose payloadHash is only ever the fingerprint of
the row-creating submission.  dataB (same key as dataA, accepted) merges
into the aggregate; resubmitting dataB is NOT short-circuited: a third
Submission row is created and the aggregate is merged a second time
(samples 2 to 3), although the fingerprint of dataB was already processed. -/
theorem C1_dedup_counterexample :
    (postSubmit (postSubmit DB.empty dataA).2 dataB).2.submissions.head?.map
        (fun s => s.payloadHash) = some (significant dataB) ∧
    (postSubmit (postSubmit DB.empty dataA).2 dataB).2.submissions.length = 2 ∧
    (postSubmit (postSubmit (postSubmit DB.empty dataA).2 dataB).2 dataB).2.submissions.length = 3 ∧
    (findBenchByKey (postSubmit (postSubmit DB.empty dataA).2 dataB).2.benchmarks
        (keyOf dataB)).map (fun b => b.samples) = some 2 ∧
    (findBenchByKey (postSubmit (postSubmit (postSubmit DB.empty dataA).2 dataB).2 dataB).2.benchmarks
        (keyOf dataB)).map (fun b => b.samples) = some 3 := by
  rw [step_A, step_B, step_B2]
  refine ⟨rfl, rfl, rfl, ?_, ?_⟩ <;> with_unfolding_all decide

/-- C1 (amended): the dedup fast path fires exactly on fingerprints
stored in the Benchmark table, which hold only the fingerprint of the
submission that created each row.  When it fires, the handler returns
the stored row with a 200 and leaves the whole database unchanged (no
Submission row, no rescoring, no aggregate change).  In particular,
submitting the first payload of a fresh key twice returns the same
aggregate row both times, with the second call a pure read. -/
theorem C1_dedup_amended (db : DB) (d : ValidData) :
    (∀ b, findBenchByHash db.benchmarks (significant d) = some b →
        postSubmit db d = ({ code := 200, row := some b }, db)) ∧
    (findBenchByHash db.benchmarks (significant d) = none →
     findBenchByKey db.benchmarks (keyOf d) = none →
     (postSubmit (postSubmit db d).2 d).1.code = 200 ∧
     (postSubmit (postSubmit db d).2 d).1.row = (postSubmit db d).1.row ∧
     (postSubmit (postSubmit db d).2 d).2 = (postSubmit db d).2) := by
  constructor
  · intro b hb
    exact postSubmit_hit hb
  · intro h1 h2
    have e1 : postSubmit db d =
        ({ code := 201,
           row := some (createBenchmark (keyOf d) d (computeStatus db d) (significant d)) },
         { submissions := mkSubmission d (significant d) (computeStatus db d) :: db.submissions,
           benchmarks :=
             createBenchmark (keyOf d) d (computeStatus db d) (significant d) :: db.benchmarks }) := by
      rw [postSubmit_miss h1, ingest_create h2]
    have hhit : findBenchByHash (postSubmit db d).2.benchmarks (significant d) =
        some (createBenchmark (keyOf d) d (computeStatus db d) (significant d)) := by
      rw [e1]
      exact findBenchByHash_cons_self rfl
    have e2 := postSubmit_hit hhit
    refine ⟨?_, ?_, ?_⟩
    · rw [e2]
    · rw [e2, e1]
    · rw [e2]

/-- Witness for C1 (amended) at a concrete fresh-key double submit. -/
theorem C1_dedup_witness :
    findBenchByHash DB.empty.benchmarks (significant dataA) = none ∧
    findBenchByKey DB.empty.benchmarks (keyOf dataA) = none ∧
    (postSubmit (postSubmit DB.empty dataA).2 dataA).2 = (postSubmit DB.empty dataA).2 :=
  ⟨rfl, rfl, ((C1_dedup_amended DB.empty dataA).2 rfl rfl).2.2⟩

/-- C2 counterexample: a rejected submission to a fresh key still creates
the Benchmark row, seeded with its own values and counted in samples -
the creation branch of the transaction never inspects the status. -/
theorem C2_creation_counterexample :
    computeStatus DB.empty dataBad = Status.rejected ∧
    (postSubmit DB.empty dataBad).2.benchmarks.map
        (fun b => (b.samples, b.fps, b.status)) = [(1, 100, Status.rejected)] := by
  with_unfolding_all decide

/-- C2 (amended): the Benchmark row is created by the first submission
for its key regardless of the status of that submission, seeded from its
values with samples 1 and the computed status; only after creation does
the merge step fold exactly the accepted submissions into means and
counters. -/
theorem C2_aggregation_amended (db : DB) (d : ValidData) :
    (findBenchByHash db.benchmarks (significant d) = none →
     findBenchByKey db.benchmarks (keyOf d) = none →
     findBenchByKey (postSubmit db d).2.benchmarks (keyOf d) =
       some (createBenchmark (keyOf d) d (computeStatus db d) (significant d)) ∧
     (createBenchmark (keyOf d) d (computeStatus db d) (significant d)).samples = 1 ∧
     (createBenchmark (keyOf d) d (computeStatus db d) (significant d)).fps = d.fps ∧
     (createBenchmark (keyOf d) d (computeStatus db d) (significant d)).fileSizeBytes =
       d.fileSizeBytes ∧
     (createBenchmark (keyOf d) d (computeStatus db d) (significant d)).vmaf = d.vmaf ∧
     (createBenchmark (keyOf d) d (computeStatus db d) (significant d)).status =
       computeStatus db d) ∧
    (∀ (e : Benchmark) (st : Status),
      (mergeBenchmark e d st).samples =
        (if st = Status.accepted then e.samples + 1 else e.samples) ∧
      (mergeBenchmark e d st).fps =
        (if st = Status.accepted
          then (e.fps * (e.samples : Rat) + d.fps) / ((e.samples : Rat) + 1)
          else e.fps)) := by
  constructor
  · intro h1 h2
    rw [postSubmit_miss h1, ingest_create h2]
    exact ⟨findBenchByKey_cons_self rfl, rfl, rfl, rfl, rfl, rfl⟩
  · intro e st
    by_cases hst : st = Status.accepted <;>
      simp [mergeBenchmark, hst, Nat.cast_add, Nat.cast_one]

/-- Witness for C2 (amended): the creation conjunct at the concrete
rejected payload. -/
theorem C2_aggregation_witness :
    findBenchByHash DB.empty.benchmarks (significant dataBad) = none ∧
    findBenchByKey DB.empty.benchmarks (keyOf dataBad) = none ∧
    findBenchByKey (postSubmit DB.empty dataBad).2.benchmarks (keyOf dataBad) =
      some (createBenchmark (keyOf dataBad) dataBad (computeStatus DB.empty dataBad)
        (significant dataBad)) :=
  ⟨rfl, rfl, ((C2_aggregation_amended DB.empty dataBad).1 rfl rfl).1⟩

set_option maxRecDepth 3000 in
/-- C3 counterexample: two failures of the claim as stated.  First, the
90-then-110 example does not yield mean 100 and count 2: the second
submission is scored against the history consisting of the first one
(median 90, MAD 0), gets robust z 20 and is rejected, so the aggregate
stays at mean 90 with count 1.  Second, the file-size running mean is
rounded: merging sizes 10485760 and 10485763 stores 10485762, not the
exact mean of the formula. -/
theorem C3_merge_counterexample :
    ((postSubmit (postSubmit DB.empty data90).2 data110).2.submissions.head?.map
        (fun s => s.status) = some Status.rejected ∧
     (findBenchByKey (postSubmit (postSubmit DB.empty data90).2 data110).2.benchmarks
        (keyOf data90)).map (fun b => (b.samples, b.fps)) = some (1, 90)) ∧
    ((findBenchByKey (postSubmit (postSubmit DB.empty dataA).2 dRound).2.benchmarks
        (keyOf dataA)).map (fun b => (b.fileSizeBytes, b.samples)) =
          some ((10485762 : Int), 2) ∧
     ((dataA.fileSizeBytes : Rat) * 1 + (dRound.fileSizeBytes : Rat)) / 2 ≠ (10485762 : Rat)) := by
  have hMf : (mergeBenchmark benchA dRound Status.accepted).fileSizeBytes = 10485762 := by
    with_unfolding_all decide
  have hMs : (mergeBenchmark benchA dRound Status.accepted).samples = 2 := by
    with_unfolding_all decide
  rw [step_90, step_110, step_A, step_Round]
  refine ⟨⟨rfl, ?_⟩, ⟨?_, ?_⟩⟩
  · with_unfolding_all decide
  · rw [show findBenchByKey dbRound.benchmarks (keyOf dataA) =
        some (mergeBenchmark benchA dRound Status.accepted) from rfl]
    show some ((mergeBenchmark benchA dRound Status.accepted).fileSizeBytes,
      (mergeBenchmark benchA dRound Status.accepted).samples) = some ((10485762 : Int), 2)
    rw [hMf, hMs]
  · with_unfolding_all decide

set_option maxRecDepth 3000 in
/-- C3 (amended): on an accepted merge, the FPS and VMAF means follow the
exact incremental formula and the counters increment; the file-size mean
is the incremental formula rounded to the nearest integer; a submission
lacking VMAF leaves the VMAF pair unchanged.  Three accepted 100-FPS
submissions with distinct fingerprints on a fresh key yield mean 100 and
count 3.  (The 90-then-110 example of the original claim fails: the
second submission is rejected as an extreme outlier.) -/
theorem C3_merge_amended :
    (∀ (e : Benchmark) (d : ValidData),
      (mergeBenchmark e d Status.accepted).fps =
        (e.fps * (e.samples : Rat) + d.fps) / ((e.samples : Rat) + 1) ∧
      (mergeBenchmark e d Status.accepted).fileSizeBytes =
        jsRound (((e.fileSizeBytes : Rat) * (e.samples : Rat) + (d.fileSizeBytes : Rat)) /
          ((e.samples : Rat) + 1)) ∧
      (mergeBenchmark e d Status.accepted).samples = e.samples + 1 ∧
      (d.vmaf = none →
        (mergeBenchmark e d Status.accepted).vmaf = e.vmaf ∧
        (mergeBenchmark e d Status.accepted).vmafSamples = e.vmafSamples) ∧
      (∀ v, d.vmaf = some v →
        (mergeBenchmark e d Status.accepted).vmaf =
          some ((e.vmaf.getD 0 * (e.vmafSamples : Rat) + v) / ((e.vmafSamples : Rat) + 1)) ∧
        (mergeBenchmark e d Status.accepted).vmafSamples = e.vmafSamples + 1)) ∧
    ((findBenchByKey (postSubmit (postSubmit (postSubmit DB.empty dataA).2 d100b).2 d100c).2.benchmarks
        (keyOf dataA)).map (fun b => (b.samples, b.fps)) = some (3, 100)) := by
  constructor
  · intro e d
    refine ⟨?_, ?_, ?_, ?_, ?_⟩
    · simp [mergeBenchmark, Nat.cast_add, Nat.cast_one]
    · simp [mergeBenchmark, Nat.cast_add, Nat.cast_one]
    · simp [mergeBenchmark]
    · intro hv
      constructor <;> simp [mergeBenchmark, hv]
    · intro v hv
      constructor <;> simp [mergeBenchmark, hv, Nat.cast_add, Nat.cast_one]
  · rw [step_A, step_100b, step_100c]
    with_unfolding_all decide

/-- Witness for C3 (amended): the merge formulas evaluated at the
concrete aggregate row of dataA and the VMAF-bearing payload dV1. -/
theorem C3_merge_witness :
    (dV1.vmaf = some 90) ∧
    (mergeBenchmark (createBenchmark (keyOf dataA) dataA Status.accepted (significant dataA))
        dV1 Status.accepted).vmafSamples =
      (createBenchmark (keyOf dataA) dataA Status.accepted (significant dataA)).vmafSamples + 1 :=
  ⟨rfl,
    (((C3_merge_amended.1
        (createBenchmark (keyOf dataA) dataA Status.accepted (significant dataA)) dV1).2.2.2.2)
      90 rfl).2⟩

/-- Named row created by data90 (used by the C4 witness). -/
def bench90 : Benchmark :=
  createBenchmark (keyOf data90) data90 Status.accepted (significant data90)

/-- C4: a non-accepted submission to a key that already has a Benchmark
row leaves all numeric fields of the row and both counters unchanged;
and once the status of the aggregate is accepted, no later submission to the
key (whatever its own status) changes that status away from accepted. -/
theorem C4_frame_nonaccepted (db : DB) (d : ValidData) (b : Benchmark)
    (hb : findBenchByKey db.benchmarks (keyOf d) = some b) :
    (computeStatus db d ≠ Status.accepted →
      ∀ b2, findBenchByKey (postSubmit db d).2.benchmarks (keyOf d) = some b2 →
        b2.fps = b.fps ∧ b2.fileSizeBytes = b.fileSizeBytes ∧ b2.vmaf = b.vmaf ∧
        b2.samples = b.samples ∧ b2.vmafSamples = b.vmafSamples) ∧
    (b.status = Status.accepted →
      ∀ b2, findBenchByKey (postSubmit db d).2.benchmarks (keyOf d) = some b2 →
        b2.status = Status.accepted) := by
  cases hh : findBenchByHash db.benchmarks (significant d) with
  | some bh =>
    rw [postSubmit_hit hh]
    constructor
    · intro _ b2 hb2
      have hb2s : findBenchByKey db.benchmarks (keyOf d) = some b2 := hb2
      rw [hb] at hb2s
      obtain rfl := (Option.some.injEq _ _).mp hb2s
      exact ⟨rfl, rfl, rfl, rfl, rfl⟩
    · intro hacc b2 hb2
      have hb2s : findBenchByKey db.benchmarks (keyOf d) = some b2 := hb2
      rw [hb] at hb2s
      obtain rfl := (Option.some.injEq _ _).mp hb2s
      exact hacc
  | none =>
    rw [postSubmit_miss hh, ingest_merge hb]
    have hbk : b.key = keyOf d := findBenchByKey_sound hb
    have hmk : (mergeBenchmark b d (computeStatus db d)).key = keyOf d := by
      rw [mergeBenchmark_key]; exact hbk
    have hrep : findBenchByKey
        (replaceBench db.benchmarks (keyOf d) (mergeBenchmark b d (computeStatus db d)))
        (keyOf d) = some (mergeBenchmark b d (computeStatus db d)) :=
      findBenchByKey_replace hb hmk
    constructor
    · intro hst b2 hb2
      have hb2s : findBenchByKey
          (replaceBench db.benchmarks (keyOf d) (mergeBenchmark b d (computeStatus db d)))
          (keyOf d) = some b2 := hb2
      rw [hrep] at hb2s
      obtain rfl := (Option.some.injEq _ _).mp hb2s
      refine ⟨?_, ?_, ?_, ?_, ?_⟩ <;> simp [mergeBenchmark, hst]
    · intro hacc b2 hb2
      have hb2s : findBenchByKey
          (replaceBench db.benchmarks (keyOf d) (mergeBenchmark b d (computeStatus db d)))
          (keyOf d) = some b2 := hb2
      rw [hrep] at hb2s
      obtain rfl := (Option.some.injEq _ _).mp hb2s
      by_cases hst : computeStatus db d = Status.accepted <;>
        simp [mergeBenchmark, hst, hacc]

set_option maxRecDepth 3000 in
/-- Witness for C4 at a concrete input: the rejected 110-FPS submission
leaves the FPS mean of the existing row for its key unchanged. -/
theorem C4_frame_witness :
    computeStatus db90 data110 ≠ Status.accepted ∧
    (mergeBenchmark bench90 data110 (computeStatus db90 data110)).fps = bench90.fps := by
  have hst : computeStatus db90 data110 ≠ Status.accepted := by with_unfolding_all decide
  refine ⟨hst, ?_⟩
  have hsteq : computeStatus db90 data110 = Status.rejected := by with_unfolding_all decide
  have hfind : findBenchByKey (postSubmit db90 data110).2.benchmarks (keyOf data110) =
      some (mergeBenchmark bench90 data110 (computeStatus db90 data110)) := by
    rw [step_110, hsteq]
    exact findBenchByKey_cons_self (by with_unfolding_all decide)
  exact ((C4_frame_nonaccepted db90 data110 bench90
    (findBenchByKey_cons_self (by with_unfolding_all decide))).1 hst _ hfind).1

/-- The decision policy exactly as the specification words it, as a
function of the sanity-check outcome, the maximum absolute robust
z-score, and the canonical-hash match. -/
def specScorerDecision (sanityOk : Bool) (z : Rat) (canonical : Bool) : Status :=
  if sanityOk = false then Status.rejected
  else if 6 < z then Status.rejected
  else if 3 < z then Status.suspect
  else if canonical || sanityOk then Status.accepted
  else Status.pending

/-- The embedded scorer agrees with the spec-side ordered decision. -/
theorem scoreStatus_spec (recent : List Submission) (d : ValidData) :
    scoreStatus recent d =
      specScorerDecision (sanityAll d) (maxAbsZ recent d) (inputHashOk d) := by
  unfold scoreStatus specScorerDecision sanityAll
  cases hc : (isCodecOk d && isPresetOk d && isFpsOk d && isSizeOk d && namesOk d) with
  | false => simp [hc]
  | true =>
    by_cases hz6 : 6 < maxAbsZ recent d
    · simp [hc, hz6]
    · by_cases hz3 : 3 < maxAbsZ recent d
      · simp [hc, hz6, hz3]
      · simp [hc, hz6, hz3]

/-- C5: for every validated submission, the computed status follows the
specified order: failed sanity checks give rejected regardless of the
statistics; otherwise a maximum absolute robust z-score above 6 gives
rejected, above 3 gives suspect; otherwise the submission is accepted
when it matches a canonical input hash or passes all sanity checks, and
pending otherwise. -/
theorem C5_scorer_policy (db : DB) (d : ValidData) :
    computeStatus db d =
      specScorerDecision (sanityAll d) (maxAbsZ (recentAccepted db (keyOf d)) d)
        (inputHashOk d) :=
  scoreStatus_spec (recentAccepted db (keyOf d)) d

/-- C10: the pending outcome is unreachable: every submission that
passes schema validation is scored rejected, suspect, or accepted,
because the sanity conjunction that avoids the impossible rejection also
makes the accept condition true. -/
theorem C10_no_pending (db : DB) (d : ValidData) :
    computeStatus db d ≠ Status.pending := by
  have h := scoreStatus_spec (recentAccepted db (keyOf d)) d
  unfold computeStatus
  rw [h]
  unfold specScorerDecision
  cases hc : sanityAll d with
  | false => simp
  | true => split_ifs <;> simp_all

set_option maxRecDepth 3000 in
/-- C6 evaluation at the failing input (code bug): after one accepted
submission with no VMAF for the key, the VMAF metric sample is the
single value 0 (from vmaf ?? 0 surviving the n at-least-0 filter), so a
new submission with VMAF 90 for the same key receives robust VMAF
z-score 90 and is rejected as extreme - although per the specification
the no-VMAF history entry must not contribute and the new submission
would be accepted with z-score 0. -/
theorem C6_vmaf_null_eval :
    dataA.vmaf = none ∧
    vmafArrOf (recentAccepted (postSubmit DB.empty dataA).2 (keyOf dV1)) = [0] ∧
    vmafZOf (recentAccepted (postSubmit DB.empty dataA).2 (keyOf dV1)) dV1 = 90 ∧
    computeStatus (postSubmit DB.empty dataA).2 dV1 = Status.rejected := by
  refine ⟨rfl, ?_, ?_, ?_⟩ <;> (rw [step_A]; with_unfolding_all decide)

/-! ### Watchdog lemmas -/

/-- Running ticks over an appended sample list splits into two runs. -/
theorem runTicks_append (thr : Rat) (g : GateState) (l1 l2 : List (Option Rat)) :
    runTicks thr g (l1 ++ l2) = runTicks thr (runTicks thr g l1) l2 := by
  unfold runTicks
  exact List.foldl_append (tick thr) g l1 l2

/-- Failed samples keep the watchdog state unchanged. -/
theorem runTicks_none (thr : Rat) (g : GateState) {post : List (Option Rat)}
    (h : ∀ x ∈ post, x = none) : runTicks thr g post = g := by
  induction post with
  | nil => rfl
  | cons x xs ih =>
    have hx := h x (List.mem_cons_self x xs)
    subst hx
    exact ih fun y hy => h y (List.mem_cons_of_mem _ hy)

/-- C7 (spec-modelled gate wiring): once the watchdog has sampled free
space below the threshold and every later sample attempt has failed
(free space has not been observed to recover), the gate is engaged and
every submission is answered service-unavailable with the database - and
hence every other pipeline component - untouched. -/
theorem C7_gate_readonly (g : GateState) (pre post : List (Option Rat)) (v thr : Rat)
    (db : DB) (d : ValidData) (hv : v < thr) (hpost : ∀ x ∈ post, x = none) :
    (runTicks thr g (pre ++ some v :: post)).ingestReadOnly = true ∧
    gatedSubmit (runTicks thr g (pre ++ some v :: post)) db d = (GateResp.unavailable, db) := by
  have hstate : runTicks thr g (pre ++ some v :: post) =
      { ingestReadOnly := true, freeGb := some v } := by
    rw [runTicks_append]
    have hstep : runTicks thr (runTicks thr g pre) (some v :: post) =
        runTicks thr (tick thr (runTicks thr g pre) (some v)) post := rfl
    rw [hstep, runTicks_none thr _ hpost]
    unfold tick
    simp [hv]
  rw [hstate]
  exact ⟨rfl, rfl⟩

/-- Witness for C7: free space sampled at 10 GB under the default 25 GB
threshold, followed by a failed sample, rejects a concrete submission. -/
theorem C7_gate_witness :
    ((10 : Rat) < DISK_MIN_FREE_GB_default) ∧
    gatedSubmit (runTicks DISK_MIN_FREE_GB_default GateState.init
        ([some 30] ++ some 10 :: [none])) DB.empty dataA =
      (GateResp.unavailable, DB.empty) := by
  have hlt : (10 : Rat) < DISK_MIN_FREE_GB_default := by norm_num [DISK_MIN_FREE_GB_default]
  exact ⟨hlt, (C7_gate_readonly GateState.init [some 30] [none] 10 DISK_MIN_FREE_GB_default
    DB.empty dataA hlt (by simp)).2⟩

/-! ### Token middleware lemmas -/

/-- Writing the metadata of a token makes the next lookup return it. -/
theorem lookupToken_set (store : TokenStore) (tok : String) (m : TokenMeta) :
    lookupToken (setToken store tok m) tok = some m := by
  induction store with
  | nil =>
    unfold setToken lookupToken
    rw [List.find?_cons_of_pos _ (by simp)]
  | cons p ps ih =>
    unfold setToken
    by_cases hp : p.1 = tok
    · rw [if_pos hp]
      unfold lookupToken
      rw [List.find?_cons_of_pos _ (by simp)]
    · rw [if_neg hp]
      unfold lookupToken at ih ⊢
      rw [List.find?_cons_of_neg _ (by simp [hp])]
      exact ih

/-- C8: the token check behaves as specified in every case - an unknown
token is rejected, a used token yields a 409 conflict (checked before
expiry, so replays always conflict), an unused expired token yields a
401 authentication failure, a token bound to a different nonempty
normalized IP than the nonempty normalized request IP is rejected, and
a successful validation marks the token used so any replay, at any later
time and from any IP, yields the 409 conflict. -/
theorem C8_token_validation (store : TokenStore) (tok : String) (nowMs : Int)
    (reqIpRaw : Option String) (htok : tok ≠ "") :
    (lookupToken store tok = none →
      validateToken store tok nowMs reqIpRaw = TokenResult.err 401 "invalid_token") ∧
    (∀ m, lookupToken store tok = some m → m.used = true →
      validateToken store tok nowMs reqIpRaw = TokenResult.err 409 "token_used") ∧
    (∀ m, lookupToken store tok = some m → m.used = false → m.expMs < nowMs →
      validateToken store tok nowMs reqIpRaw = TokenResult.err 401 "token_expired") ∧
    (∀ m, lookupToken store tok = some m → m.used = false → ¬ m.expMs < nowMs →
      m.ip ≠ "" → normalizeIp reqIpRaw ≠ "" → m.ip ≠ normalizeIp reqIpRaw →
      validateToken store tok nowMs reqIpRaw = TokenResult.err 401 "ip_mismatch") ∧
    (∀ m, lookupToken store tok = some m → m.used = false → ¬ m.expMs < nowMs →
      ¬ (m.ip ≠ "" ∧ normalizeIp reqIpRaw ≠ "" ∧ m.ip ≠ normalizeIp reqIpRaw) →
      validateToken store tok nowMs reqIpRaw =
        TokenResult.ok (setToken store tok { m with used := true }) ∧
      ∀ (now2 : Int) (ip2 : Option String),
        validateToken (setToken store tok { m with used := true }) tok now2 ip2 =
          TokenResult.err 409 "token_used") := by
  refine ⟨?_, ?_, ?_, ?_, ?_⟩
  · intro h
    unfold validateToken
    rw [if_neg htok, h]
  · intro m hm hu
    unfold validateToken
    rw [if_neg htok, hm]
    simp [hu]
  · intro m hm hu he
    unfold validateToken
    rw [if_neg htok, hm]
    simp [hu, he]
  · intro m hm hu he hip1 hip2 hip3
    unfold validateToken
    rw [if_neg htok, hm]
    simp only [hu, if_false, Bool.false_eq_true]
    rw [if_neg (by simpa using he), if_pos ⟨hip1, hip2, hip3⟩]
  · intro m hm hu he hnip
    constructor
    · unfold validateToken
      rw [if_neg htok, hm]
      simp only [hu, Bool.false_eq_true, if_false]
      rw [if_neg (by simpa using he), if_neg hnip]
    · intro now2 ip2
      unfold validateToken
      rw [if_neg htok, lookupToken_set]
      simp

/-- A concrete store with one unused token bound to an IPv4 address. -/
def storeW : TokenStore := [("t1", { ip := "1.2.3.4", expMs := 1000, used := false })]

/-- Witness for C8: the stored IP 1.2.3.4 differs from the incoming
IPv4-mapped IPv6 address normalized to 5.6.7.8, so the token is
rejected with an ip-mismatch denial. -/
theorem C8_token_witness :
    ("t1" : String) ≠ "" ∧
    validateToken storeW "t1" 500 (some "::FFFF:5.6.7.8") = TokenResult.err 401 "ip_mismatch" := by
  refine ⟨by decide, ?_⟩
  exact (C8_token_validation storeW "t1" 500 (some "::FFFF:5.6.7.8") (by decide)).2.2.2.1
    { ip := "1.2.3.4", expMs := 1000, used := false } rfl rfl (by decide) (by decide)
    (by with_unfolding_all decide) (by with_unfolding_all decide)

/-! ### CRF claim -/

/-- Bounds of the defaulted CRF for any successfully parsed field. -/
theorem zodParseCrf_bounds {c : CrfField} {oc : Option Int}
    (h : zodParseCrf c = some oc) :
    0 ≤ applyCrfDefault oc ∧ applyCrfDefault oc ≤ 63 := by
  cases c with
  | absent =>
    obtain rfl := (Option.some.injEq _ _).mp h
    exact ⟨by norm_num [applyCrfDefault], by norm_num [applyCrfDefault]⟩
  | null =>
    obtain rfl := (Option.some.injEq _ _).mp h
    exact ⟨by norm_num [applyCrfDefault], by norm_num [applyCrfDefault]⟩
  | num q =>
    simp only [zodParseCrf] at h
    by_cases hq : q.den = 1 ∧ 0 ≤ q.num ∧ q.num ≤ 63
    · rw [if_pos hq] at h
      obtain rfl := (Option.some.injEq _ _).mp h
      exact ⟨hq.2.1, hq.2.2⟩
    · rw [if_neg hq] at h
      exact absurd h (by simp)
  | nonNumeric => exact absurd h (by simp [zodParseCrf])

set_option maxRecDepth 3000 in
/-- C9 counterexample: a non-numeric CRF is not defaulted to 24 - the
request fails schema validation with a 400 and stores nothing, while a
null CRF is accepted and stored as the default 24. -/
theorem C9_crf_counterexample :
    postSubmitCrf DB.empty baseA CrfField.nonNumeric = ({ code := 400, row := none }, DB.empty) ∧
    (postSubmitCrf DB.empty baseA CrfField.null).2.submissions.map (fun s => s.crf) = [24] := by
  constructor
  · rfl
  · show (postSubmit DB.empty dataA).2.submissions.map (fun s => s.crf) = [24]
    rw [step_A]
    rfl

/-- C9 (amended): CRF is accepted as an integer in 0..63 when present
and numeric, defaulted to 24 when the field is absent or null, and a
non-numeric CRF fails schema validation (the request is rejected with a
400 and nothing is stored); consequently every stored Submission row
carries a defined integer CRF in 0..63. -/
theorem C9_crf_amended (db : DB) (base : PreCrfData) (c : CrfField) :
    (∀ oc, zodParseCrf c = some oc →
      0 ≤ applyCrfDefault oc ∧ applyCrfDefault oc ≤ 63 ∧
      ((c = CrfField.absent ∨ c = CrfField.null) → applyCrfDefault oc = 24)) ∧
    (zodParseCrf c = none →
      postSubmitCrf db base c = ({ code := 400, row := none }, db)) ∧
    ((∀ s ∈ db.submissions, 0 ≤ s.crf ∧ s.crf ≤ 63) →
      ∀ s ∈ (postSubmitCrf db base c).2.submissions, 0 ≤ s.crf ∧ s.crf ≤ 63) := by
  refine ⟨?_, ?_, ?_⟩
  · intro oc hoc
    refine ⟨(zodParseCrf_bounds hoc).1, (zodParseCrf_bounds hoc).2, ?_⟩
    rintro (rfl | rfl) <;>
      · obtain rfl := (Option.some.injEq _ _).mp hoc
        rfl
  · intro hnone
    unfold postSubmitCrf
    rw [hnone]
  · intro hinv s hs
    revert hs
    unfold postSubmitCrf
    cases hc : zodParseCrf c with
    | none => exact fun hs => hinv s hs
    | some oc =>
      intro hs
      rcases postSubmit_submissions hs with h | h
      · subst h
        exact zodParseCrf_bounds hc
      · exact hinv s h

/-- Witness for C9 (amended): the null CRF parses and defaults to 24. -/
theorem C9_crf_witness :
    zodParseCrf CrfField.null = some none ∧ applyCrfDefault none = 24 :=
  ⟨rfl, (((C9_crf_amended DB.empty baseA CrfField.null).1 none rfl).2.2) (Or.inr rfl)⟩

set_option maxRecDepth 3000 in
/-- Witness for C10 at a concrete validated payload. -/
theorem C10_no_pending_witness : computeStatus DB.empty dataA ≠ Status.pending :=
  C10_no_pending DB.empty dataA
